import Mathlib

/-!
Shallow embedding of the book-store web service (`app/app.py`, `app/schema.py`,
`app/db.py`, `app/users.py`).

The books table (`BookModel` in `app/db.py`) is modelled as a list of
`BookRow`. A row field that the database allows to be NULL is an `Option`;
the columns `title`, `author`, `price` are declared `nullable=False` and the
`isbn` column `unique=True`, so committing a transaction re-checks these
constraints (`dbConstraintsOk`). The table's natural scan order (SQLite rowid
order; `id` is the `INTEGER PRIMARY KEY`, hence the rowid) is id-ascending,
modelled by `sortById`. Prices are embedded as rationals: the code performs
no arithmetic on prices, only comparison with zero and pass-through, so the
embedding is exact on every value the handlers touch.

Pydantic validation of the `Book` response/request schema (`app/schema.py`)
is `model_validate_book` / `Book.valid`; validation of the sparse `BookUpdate`
patch is `BookUpdate.valid`. A patch field is `Option (Option _)`: the outer
layer is pydantic's set/unset tracking (`model_dump(exclude_unset=True)`),
the inner layer an explicit JSON null.

Each HTTP handler becomes a pure function from the database state (and the
request data) to a result together with the post-call database state; an
`Except.error` carries the error kind the handler raises
(`notFound` = 404 BookNotFound, `alreadyExists` = 400 BookAlreadyExists,
`noUpdateData` = 400 NoUpdateData, `integrityError` = a storage-constraint
failure surfacing as a server fault with the transaction rolled back,
`responseInvalid` = a response-validation failure surfacing as a server
fault after the commit).
-/

deriving instance DecidableEq for Except

namespace BookStore

/-- The pydantic `Book` schema (`app/schema.py`): all fields of a parsed
request body / serialized response. -/
structure Book where
  id : Int
  title : String
  author : String
  price : ℚ
  description : Option String
  isbn : Option String
  publication_year : Option Int
deriving Repr, DecidableEq

/-- Field-level validation of the `Book` schema: `title`/`author` have
`min_length=1`, `price` has `gt=0`, `publication_year` has
`ge=1000, le=9999` (absent optional fields pass). -/
def Book.valid (b : Book) : Bool :=
  decide (1 ≤ b.title.length) && decide (1 ≤ b.author.length) &&
  decide (0 < b.price) &&
  (match b.publication_year with
   | none => true
   | some y => decide (1000 ≤ y) && decide (y ≤ 9999))

/-- A row of the `books` table (`BookModel` in `app/db.py`). Columns that are
`nullable=True` in the schema, and also the `nullable=False` columns, are
`Option`s here: a live ORM object can hold `None` in a non-nullable column
until the commit re-checks the constraint. -/
structure BookRow where
  id : Int
  title : Option String
  author : Option String
  price : Option ℚ
  description : Option String
  isbn : Option String
  publication_year : Option Int
deriving Repr, DecidableEq

/-- The row a valid `Book` is stored as (`BookModel(**book.model_dump())`). -/
def rowOfBook (b : Book) : BookRow :=
  { id := b.id, title := some b.title, author := some b.author,
    price := some b.price, description := b.description, isbn := b.isbn,
    publication_year := b.publication_year }

/-- `Book.model_validate(row)`: builds the response `Book` from the ORM
object's attributes, failing (pydantic `ValidationError`) when a
non-optional field is `None` or a field constraint is violated. -/
def model_validate_book (r : BookRow) : Option Book :=
  match r.title, r.author, r.price with
  | some t, some a, some p =>
      let b : Book :=
        { id := r.id, title := t, author := a, price := p,
          description := r.description, isbn := r.isbn,
          publication_year := r.publication_year }
      if Book.valid b then some b else none
  | _, _, _ => none

/-- The pydantic `BookUpdate` schema (`app/schema.py`): every field optional,
with pydantic distinguishing a field absent from the request body (outer
`none`) from a field explicitly set to JSON null (`some none`). -/
structure BookUpdate where
  title : Option (Option String)
  author : Option (Option String)
  price : Option (Option ℚ)
  description : Option (Option String)
  isbn : Option (Option String)
  publication_year : Option (Option Int)
deriving Repr, DecidableEq

/-- Field-level validation of `BookUpdate`: a supplied non-null `title` /
`author` needs `min_length=1`, a supplied non-null `price` needs `gt=0`, a
supplied non-null `publication_year` needs `ge=1000, le=9999`; a field that
is absent or explicitly null passes. -/
def BookUpdate.valid (u : BookUpdate) : Bool :=
  (match u.title with | some (some t) => decide (1 ≤ t.length) | _ => true) &&
  (match u.author with | some (some a) => decide (1 ≤ a.length) | _ => true) &&
  (match u.price with | some (some p) => decide (0 < p) | _ => true) &&
  (match u.publication_year with
   | some (some y) => decide (1000 ≤ y) && decide (y ≤ 9999)
   | _ => true)

/-- `book_update.model_dump(exclude_unset=True)` is non-empty: at least one
field was supplied (explicit null counts as supplied). -/
def BookUpdate.hasUpdateData (u : BookUpdate) : Bool :=
  u.title.isSome || u.author.isSome || u.price.isSome ||
  u.description.isSome || u.isbn.isSome || u.publication_year.isSome

/-- The `setattr` loop of `update_book`: each field present in
`model_dump(exclude_unset=True)` overwrites the ORM object's attribute
(an explicit null writes `None`); unset fields are untouched. -/
def applyUpdate (r : BookRow) (u : BookUpdate) : BookRow :=
  { id := r.id,
    title := u.title.getD r.title,
    author := u.author.getD r.author,
    price := u.price.getD r.price,
    description := u.description.getD r.description,
    isbn := u.isbn.getD r.isbn,
    publication_year := u.publication_year.getD r.publication_year }

/-- `session.execute(select(BookModel).where(BookModel.id == book_id))`
followed by `.scalars().first()`. -/
def findBook (db : List BookRow) (book_id : Int) : Option BookRow :=
  db.find? (fun r => r.id == book_id)

/-- NOT NULL constraints of the `books` table: `title`, `author`, `price`
are `nullable=False`. -/
def rowNotNull (r : BookRow) : Bool :=
  r.title.isSome && r.author.isSome && r.price.isSome

/-- The non-null isbns currently in the table. -/
def isbnsOf (db : List BookRow) : List String :=
  db.filterMap (fun r => r.isbn)

/-- The table constraints `session.commit()` enforces: NOT NULL on
`title`/`author`/`price`, primary-key uniqueness of `id`, uniqueness of a
present `isbn`. -/
def dbConstraintsOk (db : List BookRow) : Bool :=
  db.all rowNotNull && decide (db.map (fun r => r.id)).Nodup &&
  decide (isbnsOf db).Nodup

/-- Error kinds a book handler can raise; see the module doc comment. -/
inductive ApiErr where
  | notFound
  | alreadyExists
  | noUpdateData
  | integrityError
  | responseInvalid
deriving Repr, DecidableEq

/-- Sorted insert by `id`, ascending. -/
def insertById (r : BookRow) : List BookRow → List BookRow
  | [] => [r]
  | x :: xs => if r.id ≤ x.id then r :: x :: xs else x :: insertById r xs

/-- The table in its natural scan order: by `id` ascending (SQLite returns a
full scan in rowid order and `id`, an `INTEGER PRIMARY KEY`, is the rowid). -/
def sortById : List BookRow → List BookRow
  | [] => []
  | x :: xs => insertById x (sortById xs)

/-- The list comprehension `[Book.model_validate(book) for book in books]`:
serializes every fetched row, failing on the first invalid one. -/
def validate_all : List BookRow → Option (List Book)
  | [] => some []
  | r :: rs =>
      match model_validate_book r, validate_all rs with
      | some b, some bs => some (b :: bs)
      | _, _ => none

/-- `GET /books` (`get_all_books` in `app/app.py`): offset
`(page - 1) * page_size`, limit `page_size`, each row serialized through
`Book.model_validate`. -/
def get_all_books (db : List BookRow) (page page_size : Int) :
    Except ApiErr (List Book) :=
  let offset := (page - 1) * page_size
  let rows := ((sortById db).drop offset.toNat).take page_size.toNat
  match validate_all rows with
  | some bs => Except.ok bs
  | none => Except.error ApiErr.responseInvalid

/-- `GET /books/{book_id}` (`get_book` in `app/app.py`). -/
def get_book (db : List BookRow) (book_id : Int) : Except ApiErr Book :=
  match findBook db book_id with
  | none => Except.error ApiErr.notFound
  | some r =>
      match model_validate_book r with
      | some b => Except.ok b
      | none => Except.error ApiErr.responseInvalid

/-- `POST /books` (`create_book` in `app/app.py`): 400 `BookAlreadyExists`
when a row with the same id exists, otherwise insert, commit and return the
stored record revalidated. -/
def create_book (db : List BookRow) (b : Book) :
    Except ApiErr Book × List BookRow :=
  match findBook db b.id with
  | some _ => (Except.error ApiErr.alreadyExists, db)
  | none =>
      let db2 := db ++ [rowOfBook b]
      if dbConstraintsOk db2 then
        match model_validate_book (rowOfBook b) with
        | some b2 => (Except.ok b2, db2)
        | none => (Except.error ApiErr.responseInvalid, db2)
      else (Except.error ApiErr.integrityError, db)

/-- `PUT /books/{book_id}` (`update_book` in `app/app.py`): 404 when the id
is absent, 400 `NoUpdateData` when `model_dump(exclude_unset=True)` is
empty, otherwise the `setattr` merge, the commit (rolled back when a table
constraint fails) and the revalidated merged record. -/
def update_book (db : List BookRow) (book_id : Int) (u : BookUpdate) :
    Except ApiErr Book × List BookRow :=
  match findBook db book_id with
  | none => (Except.error ApiErr.notFound, db)
  | some existing =>
      if BookUpdate.hasUpdateData u then
        let merged := applyUpdate existing u
        let db2 := db.map (fun r => if r.id == book_id then merged else r)
        if dbConstraintsOk db2 then
          match model_validate_book merged with
          | some b => (Except.ok b, db2)
          | none => (Except.error ApiErr.responseInvalid, db2)
        else (Except.error ApiErr.integrityError, db)
      else (Except.error ApiErr.noUpdateData, db)

/-- `DELETE /books/{book_id}` (`delete_book` in `app/app.py`): 404 when the
id is absent, otherwise remove the row, commit, and answer with a message
and the removed record revalidated (`expire_on_commit=False` keeps the
deleted ORM object's pre-delete attribute values readable). -/
def delete_book (db : List BookRow) (book_id : Int) :
    Except ApiErr (String × Book) × List BookRow :=
  match findBook db book_id with
  | none => (Except.error ApiErr.notFound, db)
  | some existing =>
      let db2 := db.filter (fun r => r.id != book_id)
      match model_validate_book existing with
      | some b =>
          (Except.ok (s!"Book with ID {book_id} has been deleted successfully.", b), db2)
      | none => (Except.error ApiErr.responseInvalid, db2)

end BookStore

namespace BookStore

/-! ### Basic facts about the book-store embedding -/

theorem model_validate_book_eq_some {r : BookRow} {b : Book}
    (h : model_validate_book r = some b) :
    r = rowOfBook b ∧ Book.valid b = true := by
  obtain ⟨i, t, a, p, d, n, y⟩ := r
  cases t <;> cases a <;> cases p <;> simp only [model_validate_book] at h <;>
    try exact Option.noConfusion h
  split at h
  · cases h
    refine ⟨rfl, ?_⟩
    assumption
  · exact Option.noConfusion h

theorem findBook_id {db : List BookRow} {book_id : Int} {r : BookRow}
    (h : findBook db book_id = some r) : r.id = book_id := by
  have := List.find?_some h
  simpa using this

theorem findBook_mem {db : List BookRow} {book_id : Int} {r : BookRow}
    (h : findBook db book_id = some r) : r ∈ db :=
  List.mem_of_find?_eq_some h

theorem findBook_replace {db : List BookRow} {book_id : Int} {r m : BookRow}
    (h : findBook db book_id = some r) (hm : m.id = book_id) :
    findBook (db.map fun x => if x.id == book_id then m else x) book_id =
      some m := by
  induction db with
  | nil => simp [findBook] at h
  | cons x xs ih =>
    rw [findBook] at h ⊢
    rw [List.map_cons]
    cases hx : x.id == book_id
    · rw [List.find?_cons] at h
      simp only [hx] at h
      have hhead : (if false = true then m else x) = x := rfl
      rw [hhead, List.find?_cons]
      simp only [hx]
      exact ih h
    · have hmm : (m.id == book_id) = true := by simp [hm]
      simp [List.find?_cons, hmm]

theorem findBook_filter_self (db : List BookRow) (book_id : Int) :
    findBook (db.filter fun r => r.id != book_id) book_id = none := by
  rw [findBook, List.find?_eq_none]
  intro x hx
  have := (List.mem_filter.mp hx).2
  simpa using this

theorem validate_all_length {rs : List BookRow} {bs : List Book}
    (h : validate_all rs = some bs) : bs.length = rs.length := by
  induction rs generalizing bs with
  | nil => cases h; rfl
  | cons r rs ih =>
    simp only [validate_all] at h
    cases hr : model_validate_book r <;> rw [hr] at h
    · cases h
    · cases hrs : validate_all rs <;> rw [hrs] at h
      · cases h
      · cases h
        simpa using ih hrs

theorem validate_all_mem {rs : List BookRow} {bs : List Book}
    (h : validate_all rs = some bs) :
    ∀ b ∈ bs, ∃ r ∈ rs, model_validate_book r = some b := by
  induction rs generalizing bs with
  | nil => cases h; simp
  | cons r rs ih =>
    simp only [validate_all] at h
    cases hr : model_validate_book r <;> rw [hr] at h
    · cases h
    · cases hrs : validate_all rs <;> rw [hrs] at h
      · cases h
      · cases h
        intro b hb
        rcases List.mem_cons.mp hb with hb | hb
        · exact ⟨r, List.mem_cons_self r rs, hb ▸ hr⟩
        · rcases ih hrs b hb with ⟨r', hr', hv⟩
          exact ⟨r', List.mem_cons_of_mem r hr', hv⟩

theorem mem_insertById {r x : BookRow} {l : List BookRow} :
    x ∈ insertById r l ↔ x = r ∨ x ∈ l := by
  induction l with
  | nil => simp [insertById]
  | cons y ys ih =>
    by_cases hy : r.id ≤ y.id
    · simp [insertById, hy]
    · simp only [insertById, if_neg hy, List.mem_cons, ih]
      tauto

theorem mem_sortById {x : BookRow} {db : List BookRow} :
    x ∈ sortById db ↔ x ∈ db := by
  induction db with
  | nil => simp [sortById]
  | cons y ys ih => simp [sortById, mem_insertById, ih]

theorem model_validate_rowOfBook {b : Book} (h : Book.valid b = true) :
    model_validate_book (rowOfBook b) = some b := by
  simp [model_validate_book, rowOfBook, h]

theorem all_rowNotNull_map {l : List BookRow} {f : BookRow → BookRow}
    (h : ∀ r ∈ l, rowNotNull (f r) = rowNotNull r) :
    (l.map f).all rowNotNull = l.all rowNotNull := by
  induction l with
  | nil => rfl
  | cons x xs ih =>
    simp only [List.mem_cons, forall_eq_or_imp] at h
    simp [h.1, ih h.2]

theorem dbConstraintsOk_map {db : List BookRow} {f : BookRow → BookRow}
    (hid : ∀ r ∈ db, (f r).id = r.id)
    (hisbn : ∀ r ∈ db, (f r).isbn = r.isbn)
    (hnn : ∀ r ∈ db, rowNotNull (f r) = rowNotNull r) :
    dbConstraintsOk (db.map f) = dbConstraintsOk db := by
  have h1 : (db.map f).map (fun r => r.id) = db.map (fun r => r.id) := by
    rw [List.map_map]
    exact List.map_congr_left hid
  have h2 : isbnsOf (db.map f) = isbnsOf db := by
    rw [isbnsOf, List.filterMap_map]
    exact List.filterMap_congr hisbn
  rw [dbConstraintsOk, dbConstraintsOk, h1, h2, all_rowNotNull_map hnn]

theorem update_book_ok_inv {db db2 : List BookRow} {book_id : Int}
    {u : BookUpdate} {b : Book}
    (h : update_book db book_id u = (Except.ok b, db2)) :
    ∃ ex, findBook db book_id = some ex ∧
      BookUpdate.hasUpdateData u = true ∧
      db2 = db.map (fun r => if r.id == book_id then applyUpdate ex u else r) ∧
      dbConstraintsOk db2 = true ∧
      model_validate_book (applyUpdate ex u) = some b := by
  simp only [update_book] at h
  split at h
  · simp at h
  next ex hf =>
    split at h
    · split at h
      · split at h
        next b' hv =>
          rw [Prod.mk.injEq, Except.ok.injEq] at h
          obtain ⟨hb, hdb⟩ := h
          subst hb
          subst hdb
          exact ⟨ex, hf, by assumption, rfl, by assumption, hv⟩
        next hv => simp at h
      · simp at h
    · simp at h

/-!
The account/session flow (`app/users.py`). The `users` table is a list of
`UserRow`. Password hashing (`passlib` bcrypt) is out of scope per the spec;
handler functions take the hash-verification predicate
`verify : plain → hashed → Bool` as a parameter. A JWT is modelled as its
decoded claim set together with the string key it was signed with. The
configured secret is an `Option String` because `SECRET_KEY =
os.getenv("")` looks up an environment variable with an empty name and
returns None (the spec flags this fallback as a latent defect):
`jwt.encode` (`python-jose`) with a None key raises `JWSError` (`HMACKey`
rejects a key that is not str/bytes/dict), an exception `login_user` does
not catch, and `jwt.decode` with a None key never verifies any signature,
the resulting error being wrapped into the `JWTError` that
`get_current_user` turns into 401. With a string key, decode succeeds
exactly when the verification key matches the signing key and the `exp`
claim has not passed, yielding the claims. Time is an integer count of
minutes.
-/

/-- A row of the `users` table (`UserModel` in `app/db.py`).
`date_of_birth` and `created_at` are opaque to every claim, embedded as
plain strings/integers. -/
structure UserRow where
  id : Int
  email : String
  hashed_password : String
  first_name : String
  last_name : String
  date_of_birth : String
  is_active : Bool
  is_superuser : Bool
  created_at : Int
deriving Repr, DecidableEq

/-- The claim set of a JWT: `sub`, `user_id`, and the `exp` claim
(minutes). -/
structure JwtPayload where
  sub : Option String
  user_id : Option Int
  exp : Int
deriving Repr, DecidableEq

/-- A signed JWT: its claims plus the key it was signed with. -/
structure Jwt where
  payload : JwtPayload
  key : String
deriving Repr, DecidableEq

/-- The `Token` response schema. -/
structure Token where
  access_token : Jwt
  token_type : String
deriving Repr, DecidableEq

/-- `SECRET_KEY = os.getenv("")`: `os.getenv` with an empty variable name
finds nothing and returns the default, None — there is no configured
signing secret. -/
def SECRET_KEY : Option String := none

/-- `ACCESS_TOKEN_EXPIRE_MINUTES = 30`. -/
def ACCESS_TOKEN_EXPIRE_MINUTES : Int := 30

/-- `create_access_token(data, expires_delta)` (`app/users.py`): copies the
claims, sets `exp` to now plus the given delta (default 30 minutes) and
calls `jwt.encode(to_encode, SECRET_KEY, ...)`. With the None `SECRET_KEY`
the encode raises `JWSError` (python-jose's `HMACKey` rejects a key that
is not str/bytes/dict), modelled as `none`; only a string key signs,
yielding the token. -/
def create_access_token (sub : Option String) (user_id : Option Int)
    (expires_delta : Option Int) (now : Int) : Option Jwt :=
  let expire := now + expires_delta.getD ACCESS_TOKEN_EXPIRE_MINUTES
  match SECRET_KEY with
  | none => none
  | some k =>
      some { payload := { sub := sub, user_id := user_id, exp := expire },
             key := k }

/-- `jwt.decode(token, key, algorithms)` with default options: fails
(`JWTError`) unless the signature verifies with `key` and the `exp` claim
lies in the future; on success yields the claim set. With a None `key`
signature verification never succeeds (the `JWSError`/`JWKError` is
wrapped into the `JWTError` the caller catches), so no token is ever
accepted. -/
def jwt_decode (t : Jwt) (key : Option String) (now : Int) :
    Option JwtPayload :=
  match key with
  | none => none
  | some k =>
      if t.key == k && decide (now < t.payload.exp) then some t.payload
      else none

/-- `get_user_by_email` (`app/users.py`): first row matching the email
(`scalar_one_or_none`; the email column is unique). -/
def get_user_by_email (db : List UserRow) (email : String) : Option UserRow :=
  db.find? (fun u => u.email == email)

/-- `authenticate_user` (`app/users.py`): `None` when no account matches
the email or the password fails hash verification, otherwise the account. -/
def authenticate_user (verify : String → String → Bool) (db : List UserRow)
    (email password : String) : Option UserRow :=
  match get_user_by_email db email with
  | none => none
  | some user =>
      if verify password user.hashed_password then some user else none

/-- Errors `login_user` raises: 401 InvalidCredentials, 403 InactiveUser,
and `signingError` for the `JWSError` that `jwt.encode` raises with the
None secret — `login_user` does not catch it, so it surfaces as an
unhandled server fault (HTTP 500). -/
inductive LoginErr where
  | invalidCredentials
  | inactiveUser
  | signingError
deriving Repr, DecidableEq

/-- `POST /login` (`login_user` in `app/users.py`): authenticate by email
and password, reject an inactive account, then try to issue a token
carrying `sub = email`, `user_id = id` and a 30-minute expiry — the
signing step raises when there is no string secret. -/
def login_user (verify : String → String → Bool) (db : List UserRow)
    (email password : String) (now : Int) : Except LoginErr Token :=
  match authenticate_user verify db email password with
  | none => Except.error LoginErr.invalidCredentials
  | some user =>
      if user.is_active then
        match create_access_token (some user.email) (some user.id)
            (some ACCESS_TOKEN_EXPIRE_MINUTES) now with
        | none => Except.error LoginErr.signingError
        | some tok => Except.ok { access_token := tok, token_type := "bearer" }
      else Except.error LoginErr.inactiveUser

/-- Errors of token authentication: 401 on any credential problem, 400 on
an inactive resolved account. -/
inductive AuthErr where
  | unauthorized
  | inactiveUser
deriving Repr, DecidableEq

/-- `get_current_user` (`app/users.py`): decode the bearer token with
`SECRET_KEY`, take the `sub` claim as the email, and resolve the account;
any failure is 401. -/
def get_current_user (db : List UserRow) (token : Jwt) (now : Int) :
    Except AuthErr UserRow :=
  match jwt_decode token SECRET_KEY now with
  | none => Except.error AuthErr.unauthorized
  | some payload =>
      match payload.sub with
      | none => Except.error AuthErr.unauthorized
      | some email =>
          match get_user_by_email db email with
          | none => Except.error AuthErr.unauthorized
          | some user => Except.ok user

/-- `get_current_active_user` (`app/users.py`): `get_current_user`, then
reject an inactive account. -/
def get_current_active_user (db : List UserRow) (token : Jwt) (now : Int) :
    Except AuthErr UserRow :=
  match get_current_user db token now with
  | Except.error e => Except.error e
  | Except.ok user =>
      if user.is_active then Except.ok user
      else Except.error AuthErr.inactiveUser

end BookStore

namespace BookStore

/-! ### Claim theorems -/

/-- C4: for every stored book with id present, `update(id, patch)` with a
patch that supplies zero fields fails with the 400 ValidationError kind
`NoUpdateData`, and the stored table is left unchanged by the failed call. -/
theorem update_book_empty_patch {db : List BookRow} {book_id : Int}
    {ex : BookRow} (u : BookUpdate)
    (hf : findBook db book_id = some ex)
    (hu : BookUpdate.hasUpdateData u = false) :
    update_book db book_id u = (Except.error ApiErr.noUpdateData, db) := by
  simp [update_book, hf, hu]

/-- C4 witness. -/
theorem update_book_empty_patch_witness :
    update_book [⟨1, some "T", some "A", some 5, none, none, none⟩] 1
      ⟨none, none, none, none, none, none⟩ =
      (Except.error ApiErr.noUpdateData,
        [⟨1, some "T", some "A", some 5, none, none, none⟩]) :=
  update_book_empty_patch ⟨none, none, none, none, none, none⟩
    (show findBook [⟨1, some "T", some "A", some 5, none, none, none⟩] 1 =
        some ⟨1, some "T", some "A", some 5, none, none, none⟩ by decide)
    (by decide)

/-- C10: the NotFound check of `update_book` precedes the empty-patch
check: for an absent id, an update with a patch supplying zero fields fails
with 404 NotFound, not with the 400 `NoUpdateData` error, and the table is
unchanged. -/
theorem update_book_notfound_precedence {db : List BookRow} {book_id : Int}
    (u : BookUpdate)
    (hf : findBook db book_id = none)
    (_hu : BookUpdate.hasUpdateData u = false) :
    update_book db book_id u = (Except.error ApiErr.notFound, db) := by
  simp [update_book, hf]

/-- C10 witness. -/
theorem update_book_notfound_precedence_witness :
    update_book [] 5 ⟨none, none, none, none, none, none⟩ =
      (Except.error ApiErr.notFound, []) :=
  update_book_notfound_precedence _ (by decide) (by decide)

/-- C2: whenever `update(id, patch)` succeeds, the merged record it stored
and returned satisfies every field-level constraint of `Book` (non-empty
title and author, positive price, publication year in range when present):
validation applies to the merged result, not only to the patch's fields. -/
theorem update_book_validates_merged {db db2 : List BookRow} {book_id : Int}
    {u : BookUpdate} {b : Book}
    (h : update_book db book_id u = (Except.ok b, db2)) :
    Book.valid b = true ∧ findBook db2 book_id = some (rowOfBook b) := by
  obtain ⟨ex, hf, hu, hdb2, hc, hv⟩ := update_book_ok_inv h
  obtain ⟨hrow, hvalid⟩ := model_validate_book_eq_some hv
  refine ⟨hvalid, ?_⟩
  subst hdb2
  have hid : (applyUpdate ex u).id = book_id := by
    simpa [applyUpdate] using findBook_id hf
  rw [← hrow]
  exact findBook_replace hf hid

/-- C2 witness. -/
theorem update_book_validates_merged_witness :
    Book.valid ⟨1, "U", "V", 7, none, none, none⟩ = true ∧
    findBook [⟨1, some "U", some "V", some 7, none, none, none⟩] 1 =
      some (rowOfBook ⟨1, "U", "V", 7, none, none, none⟩) :=
  update_book_validates_merged
    (show update_book [⟨1, some "U", some "V", some 5, none, none, none⟩] 1
        ⟨none, none, some (some 7), none, none, none⟩ =
      (Except.ok ⟨1, "U", "V", 7, none, none, none⟩,
        [⟨1, some "U", some "V", some 7, none, none, none⟩]) by decide)

/-- C1 counterexample: the patch that explicitly nulls `title` supplies one
field, so it is a non-empty patch, and the book with id 1 is stored; yet
`update` does not overwrite the supplied field and returns no merged
record: the flushed merge violates the table's NOT NULL constraint on
`title`, the call fails as a server fault, the transaction rolls back and
the stored record keeps its prior title. -/
theorem update_book_frame_counterexample :
    BookUpdate.hasUpdateData ⟨some none, none, none, none, none, none⟩ = true ∧
    (findBook [⟨1, some "T", some "A", some 5, none, none, none⟩] 1).isSome = true ∧
    update_book [⟨1, some "T", some "A", some 5, none, none, none⟩] 1
        ⟨some none, none, none, none, none, none⟩ =
      (Except.error ApiErr.integrityError,
        [⟨1, some "T", some "A", some 5, none, none, none⟩]) := by
  decide

/-- C1 (amended): for every stored book with id present and every non-empty
patch on which the update call succeeds (the merged row violates no table
constraint), `update(id, patch)` overwrites exactly the fields supplied in
the patch, every unsupplied field retains its pre-update value, and the
returned record equals the merged record now in the store. -/
theorem update_book_frame {db db2 : List BookRow} {book_id : Int}
    {u : BookUpdate} {b : Book} {old : BookRow}
    (hf : findBook db book_id = some old)
    (h : update_book db book_id u = (Except.ok b, db2)) :
    findBook db2 book_id = some (rowOfBook b) ∧
    (rowOfBook b).id = old.id ∧
    (u.title = none → (rowOfBook b).title = old.title) ∧
    (∀ v, u.title = some v → (rowOfBook b).title = v) ∧
    (u.author = none → (rowOfBook b).author = old.author) ∧
    (∀ v, u.author = some v → (rowOfBook b).author = v) ∧
    (u.price = none → (rowOfBook b).price = old.price) ∧
    (∀ v, u.price = some v → (rowOfBook b).price = v) ∧
    (u.description = none → (rowOfBook b).description = old.description) ∧
    (∀ v, u.description = some v → (rowOfBook b).description = v) ∧
    (u.isbn = none → (rowOfBook b).isbn = old.isbn) ∧
    (∀ v, u.isbn = some v → (rowOfBook b).isbn = v) ∧
    (u.publication_year = none →
      (rowOfBook b).publication_year = old.publication_year) ∧
    (∀ v, u.publication_year = some v →
      (rowOfBook b).publication_year = v) := by
  obtain ⟨ex, hfex, hu, hdb2, hc, hv⟩ := update_book_ok_inv h
  have hex : ex = old := by
    rw [hf] at hfex
    exact (Option.some.inj hfex).symm
  subst hex
  obtain ⟨hrow, hvalid⟩ := model_validate_book_eq_some hv
  have hid : (applyUpdate ex u).id = book_id := by
    simpa [applyUpdate] using findBook_id hf
  subst hdb2
  rw [← hrow]
  refine ⟨findBook_replace hf hid, rfl, ?_, ?_, ?_, ?_, ?_, ?_, ?_, ?_, ?_,
    ?_, ?_, ?_⟩ <;>
    first
      | (intro hh; simp [applyUpdate, hh])
      | (intro v hh; simp [applyUpdate, hh])

/-- C9: in `update`, a field explicitly set to null is supplied, not unset:
on any stored valid book, the patch `{description: null}` passes the
empty-patch check and overwrites the stored description with null, while
every field absent from the patch is left unapplied. -/
theorem update_book_explicit_null {db : List BookRow} {book_id : Int}
    {ex : BookRow} {b : Book}
    (hf : findBook db book_id = some ex)
    (hv : model_validate_book ex = some b)
    (hdb : dbConstraintsOk db = true) :
    BookUpdate.hasUpdateData ⟨none, none, none, some none, none, none⟩ = true ∧
    update_book db book_id ⟨none, none, none, some none, none, none⟩ =
      (Except.ok { b with description := none },
        db.map fun r =>
          if r.id == book_id then { ex with description := none } else r) ∧
    findBook
        (db.map fun r =>
          if r.id == book_id then { ex with description := none } else r)
        book_id = some { ex with description := none } := by
  obtain ⟨hrow, hvalid⟩ := model_validate_book_eq_some hv
  have hid_ex : ex.id = book_id := findBook_id hf
  have hmerged : applyUpdate ex ⟨none, none, none, some none, none, none⟩ =
      { ex with description := none } := rfl
  have hvalid2 : Book.valid { b with description := none } = true := hvalid
  have hvmerged : model_validate_book { ex with description := none } =
      some { b with description := none } := by
    rw [hrow]
    simp [model_validate_book, rowOfBook, hvalid2]
  have hnodup : (db.map (fun r => r.id)).Nodup := by
    rw [dbConstraintsOk] at hdb
    simp only [Bool.and_eq_true, decide_eq_true_eq] at hdb
    exact hdb.1.2
  have hreq : ∀ r ∈ db, (r.id == book_id) = true → r = ex := by
    intro r hr hrb
    refine List.inj_on_of_nodup_map hnodup hr (findBook_mem hf) ?_
    have : r.id = book_id := by simpa using hrb
    simp [this, hid_ex]
  have c1 : ∀ r ∈ db,
      (if r.id == book_id then { ex with description := none } else r).id =
        r.id := by
    intro r hr
    by_cases hrb : (r.id == book_id) = true
    · rw [if_pos hrb, hreq r hr hrb]
    · rw [if_neg hrb]
  have c2 : ∀ r ∈ db,
      (if r.id == book_id then { ex with description := none } else r).isbn =
        r.isbn := by
    intro r hr
    by_cases hrb : (r.id == book_id) = true
    · rw [if_pos hrb, hreq r hr hrb]
    · rw [if_neg hrb]
  have c3 : ∀ r ∈ db,
      rowNotNull
          (if r.id == book_id then { ex with description := none } else r) =
        rowNotNull r := by
    intro r hr
    by_cases hrb : (r.id == book_id) = true
    · rw [if_pos hrb, hreq r hr hrb]
      rfl
    · rw [if_neg hrb]
  have hcon : dbConstraintsOk
      (db.map fun r =>
        if r.id == book_id then { ex with description := none } else r) =
      true := by
    rw [dbConstraintsOk_map c1 c2 c3]
    exact hdb
  refine ⟨rfl, ?_, ?_⟩
  · simp only [update_book, hf]
    rw [if_pos (show BookUpdate.hasUpdateData
        ⟨none, none, none, some none, none, none⟩ = true from rfl)]
    simp only [hmerged, hcon, if_true, hvmerged]
  · exact findBook_replace hf (by simpa using hid_ex)

/-- C5 counterexample: a field-valid book whose id is absent from the store
is nevertheless rejected when its isbn duplicates a stored isbn: the insert
violates the table's UNIQUE constraint on `isbn`, create fails as a server
fault instead of succeeding, and nothing is stored. -/
theorem create_book_counterexample :
    Book.valid ⟨2, "B", "C", 4, none, some "X", none⟩ = true ∧
    findBook [⟨1, some "A", some "B", some 3, none, some "X", none⟩] 2 =
      none ∧
    create_book [⟨1, some "A", some "B", some 3, none, some "X", none⟩]
        ⟨2, "B", "C", 4, none, some "X", none⟩ =
      (Except.error ApiErr.integrityError,
        [⟨1, some "A", some "B", some 3, none, some "X", none⟩]) := by
  decide

/-- C5 (amended): for every valid Book `b` whose id is not already present
in the store and whose isbn, when present, is not already present either,
`create(b)` succeeds returning the stored record unchanged and a subsequent
`get(b.id)` returns a value equal to `b`; and for any book whose id is
already present, create fails with AlreadyExists and leaves the store
unchanged. -/
theorem create_book_spec {db : List BookRow} {b : Book}
    (hvalid : Book.valid b = true)
    (hfresh : findBook db b.id = none)
    (hok : dbConstraintsOk db = true)
    (hisbn : (b.isbn.all fun s => !((isbnsOf db).contains s)) = true) :
    create_book db b = (Except.ok b, db ++ [rowOfBook b]) ∧
    get_book (db ++ [rowOfBook b]) b.id = Except.ok b ∧
    (∀ (db' : List BookRow) (b' : Book) ex, findBook db' b'.id = some ex →
      create_book db' b' = (Except.error ApiErr.alreadyExists, db')) := by
  have hver := model_validate_rowOfBook hvalid
  have hfreshmem : ∀ r ∈ db, ¬ r.id = b.id := by
    rw [findBook, List.find?_eq_none] at hfresh
    intro r hr
    have := hfresh r hr
    simpa using this
  have hcon : dbConstraintsOk (db ++ [rowOfBook b]) = true := by
    rw [dbConstraintsOk] at hok ⊢
    simp only [Bool.and_eq_true, decide_eq_true_eq] at hok ⊢
    obtain ⟨⟨hnn, hids⟩, hisbns⟩ := hok
    refine ⟨⟨?_, ?_⟩, ?_⟩
    · rw [List.all_append, hnn]
      simp [rowOfBook, rowNotNull]
    · rw [List.map_append, List.nodup_append]
      refine ⟨hids, by simp, ?_⟩
      intro a ha hb
      simp only [List.map_cons, List.map_nil, List.mem_singleton] at hb
      obtain ⟨r, hr, hrid⟩ := List.mem_map.mp ha
      exact hfreshmem r hr (by rw [hrid, hb]; rfl)
    · rw [isbnsOf, List.filterMap_append]
      cases hbi : b.isbn with
      | none =>
          simp only [rowOfBook, hbi]
          simpa [isbnsOf] using hisbns
      | some s =>
          rw [List.nodup_append]
          refine ⟨by simpa [isbnsOf] using hisbns, by simp [rowOfBook, hbi], ?_⟩
          intro a ha hb
          simp only [rowOfBook, hbi, List.filterMap_cons, List.filterMap_nil,
            List.mem_singleton] at hb
          rw [hbi] at hisbn
          have hnotmem : s ∉ isbnsOf db := by
            simp only [Option.all] at hisbn
            simpa using hisbn
          rw [isbnsOf] at hnotmem
          exact hnotmem (hb ▸ ha)
  refine ⟨?_, ?_, ?_⟩
  · simp only [create_book, hfresh]
    rw [if_pos hcon]
    simp only [hver]
  · have hfind2 : findBook (db ++ [rowOfBook b]) b.id = some (rowOfBook b) := by
      rw [findBook, List.find?_append]
      rw [findBook] at hfresh
      rw [hfresh]
      simp [rowOfBook]
    simp only [get_book, hfind2, hver]
  · intro db' b' ex hex
    simp [create_book, hex]

/-- C5 witness (for the amended claim). -/
theorem create_book_spec_witness :
    create_book [] ⟨1, "A", "B", 3, none, none, none⟩ =
      (Except.ok ⟨1, "A", "B", 3, none, none, none⟩,
        [] ++ [rowOfBook ⟨1, "A", "B", 3, none, none, none⟩]) :=
  (create_book_spec (by decide) (by decide) (by decide) (by decide)).1

/-- C9 witness. -/
theorem update_book_explicit_null_witness :
    update_book [⟨1, some "Y", some "Z", some 3, some "old", none, none⟩] 1
        ⟨none, none, none, some none, none, none⟩ =
      (Except.ok ⟨1, "Y", "Z", 3, none, none, none⟩,
        [⟨1, some "Y", some "Z", some 3, none, none, none⟩]) := by
  have h := update_book_explicit_null
    (show findBook [⟨1, some "Y", some "Z", some 3, some "old", none, none⟩] 1 =
        some ⟨1, some "Y", some "Z", some 3, some "old", none, none⟩ by decide)
    (show model_validate_book ⟨1, some "Y", some "Z", some 3, some "old", none, none⟩ =
        some ⟨1, "Y", "Z", 3, some "old", none, none⟩ by decide)
    (show dbConstraintsOk [⟨1, some "Y", some "Z", some 3, some "old", none, none⟩] =
        true by decide)
  exact h.2.1

/-- C1 witness (for the amended claim). -/
theorem update_book_frame_witness :
    findBook [⟨1, some "W", some "X", some 7, none, none, none⟩] 1 =
      some (rowOfBook ⟨1, "W", "X", 7, none, none, none⟩) :=
  (update_book_frame
    (show findBook [⟨1, some "W", some "X", some 5, none, none, none⟩] 1 =
        some ⟨1, some "W", some "X", some 5, none, none, none⟩ by decide)
    (show update_book [⟨1, some "W", some "X", some 5, none, none, none⟩] 1
        ⟨none, none, some (some 7), none, none, none⟩ =
      (Except.ok ⟨1, "W", "X", 7, none, none, none⟩,
        [⟨1, some "W", some "X", some 7, none, none, none⟩]) by decide)).1

end BookStore

namespace BookStore

/-- C6: for every stored valid book with id present, `delete(id)` removes
the record so that a subsequent `get(id)` fails with NotFound, and the
response's `deleted_book` equals the record's state immediately before the
deletion; for an absent id, delete fails with NotFound and changes
nothing. -/
theorem delete_book_spec {db : List BookRow} {book_id : Int} {ex : BookRow}
    {b : Book}
    (hf : findBook db book_id = some ex)
    (hv : model_validate_book ex = some b) :
    delete_book db book_id =
      (Except.ok
          (s!"Book with ID {book_id} has been deleted successfully.", b),
        db.filter fun r => r.id != book_id) ∧
    get_book (db.filter fun r => r.id != book_id) book_id =
      Except.error ApiErr.notFound ∧
    (∀ (db' : List BookRow) (i : Int), findBook db' i = none →
      delete_book db' i = (Except.error ApiErr.notFound, db')) := by
  refine ⟨?_, ?_, ?_⟩
  · simp only [delete_book, hf, hv]
  · simp only [get_book, findBook_filter_self]
  · intro db' i hn
    simp [delete_book, hn]

/-- C6 witness. -/
theorem delete_book_spec_witness :
    get_book
        ([⟨1, some "D", some "E", some 2, none, none, none⟩,
          ⟨2, some "F", some "G", some 3, none, none, none⟩].filter
          fun r => r.id != 1) 1 =
      Except.error ApiErr.notFound :=
  (delete_book_spec
    (show findBook [⟨1, some "D", some "E", some 2, none, none, none⟩,
        ⟨2, some "F", some "G", some 3, none, none, none⟩] 1 =
      some ⟨1, some "D", some "E", some 2, none, none, none⟩ by decide)
    (show model_validate_book ⟨1, some "D", some "E", some 2, none, none, none⟩ =
      some ⟨1, "D", "E", 2, none, none, none⟩ by decide)).2.1

/-- First record of the three-record pagination scenario. -/
def bookOne : Book := ⟨1, "One", "A1", 5, none, none, none⟩

/-- Second record of the three-record pagination scenario. -/
def bookTwo : Book := ⟨2, "Two", "A2", 6, none, none, none⟩

/-- Third record of the three-record pagination scenario. -/
def bookThree : Book := ⟨3, "Three", "A3", 7, none, none, none⟩

/-- The store after inserting the three records, in that order, through
`create_book`. -/
def threeBookDb : List BookRow :=
  (create_book (create_book (create_book [] bookOne).2 bookTwo).2
    bookThree).2

/-- C3: `list(page, page_size)` returns the slice of the table, in its
deterministic id-ascending scan order, at offset `(page-1)*page_size` and
of at most `page_size` records, and every returned record is stored; in
particular, over exactly the three records with ids 1, 2, 3 inserted in
that order, page 1 of size 2 returns exactly the first two and page 2
returns exactly the third. -/
theorem get_all_books_pagination {db : List BookRow} {page page_size : Int}
    {bs : List Book}
    (_hpage : 1 ≤ page) (_hsize : 1 ≤ page_size)
    (h : get_all_books db page page_size = Except.ok bs) :
    validate_all (((sortById db).drop ((page - 1) * page_size).toNat).take
        page_size.toNat) = some bs ∧
    bs.length ≤ page_size.toNat ∧
    (∀ b ∈ bs, rowOfBook b ∈ db) ∧
    ((create_book [] bookOne).1 = Except.ok bookOne ∧
      (create_book (create_book [] bookOne).2 bookTwo).1 =
        Except.ok bookTwo ∧
      (create_book (create_book (create_book [] bookOne).2 bookTwo).2
          bookThree).1 = Except.ok bookThree) ∧
    get_all_books threeBookDb 1 2 = Except.ok [bookOne, bookTwo] ∧
    get_all_books threeBookDb 2 2 = Except.ok [bookThree] := by
  simp only [get_all_books] at h
  cases hv : validate_all (((sortById db).drop
      ((page - 1) * page_size).toNat).take page_size.toNat) <;> rw [hv] at h
  · cases h
  next bs' =>
    have hbs : bs' = bs := by
      cases h
      rfl
    subst hbs
    refine ⟨rfl, ?_, ?_, by decide, by decide, by decide⟩
    · rw [validate_all_length hv, List.length_take]
      exact min_le_left _ _
    · intro b hb
      obtain ⟨r, hr, hrv⟩ := validate_all_mem hv b hb
      obtain ⟨hrow, _⟩ := model_validate_book_eq_some hrv
      rw [← hrow]
      exact mem_sortById.mp (List.mem_of_mem_drop (List.mem_of_mem_take hr))

/-- C3 witness. -/
theorem get_all_books_pagination_witness :
    ([bookOne, bookTwo] : List Book).length ≤ (2 : Int).toNat :=
  (get_all_books_pagination (by decide) (by decide)
    (show get_all_books threeBookDb 1 2 = Except.ok [bookOne, bookTwo]
      by decide)).2.1

end BookStore

namespace BookStore



/-- C7: the error taxonomy of `login` behaves as claimed — a wrong password
or unknown email gives 401 InvalidCredentials, an inactive account with
correct credentials gives 403 InactiveUser — but the success case diverges
from the claim: `SECRET_KEY = os.getenv("")` is None, `jwt.encode` with a
None key raises `JWSError`, so for an existing active account with correct
credentials the call ends in an unhandled server fault and returns no
token. Evaluated at concrete inputs, the failing one last. -/
theorem login_user_signing_defect :
    SECRET_KEY = none ∧
    login_user (fun p h => p == h)
        [⟨7, "a@x.com", "pw", "J", "D", "1990-05-15", true, false, 0⟩]
        "a@x.com" "bad" 0 = Except.error LoginErr.invalidCredentials ∧
    login_user (fun p h => p == h)
        [⟨7, "a@x.com", "pw", "J", "D", "1990-05-15", true, false, 0⟩]
        "missing@x.com" "pw" 0 = Except.error LoginErr.invalidCredentials ∧
    login_user (fun p h => p == h)
        [⟨8, "c@z.net", "pw2", "K", "E", "1991-06-16", false, false, 0⟩]
        "c@z.net" "pw2" 0 = Except.error LoginErr.inactiveUser ∧
    login_user (fun p h => p == h)
        [⟨7, "a@x.com", "pw", "J", "D", "1990-05-15", true, false, 0⟩]
        "a@x.com" "pw" 0 = Except.error LoginErr.signingError := by
  decide

/-- C8: with the absent signing secret the claimed round trip has no
instance: `login` never returns a token, for any store, credentials or
time, and token authentication rejects every bearer token with
Unauthorized — in particular any token whose expiry lies in the past —
because signature verification with a None key never succeeds, not through
the modelled expiry check. -/
theorem token_no_roundtrip (verify : String → String → Bool)
    (db : List UserRow) (email password : String) (now : Int)
    (tok : Token) (t : Jwt) (now2 : Int) :
    login_user verify db email password now ≠ Except.ok tok ∧
    get_current_user db t now2 = Except.error AuthErr.unauthorized := by
  constructor
  · intro h
    simp only [login_user] at h
    cases hauth : authenticate_user verify db email password <;>
      rw [hauth] at h
    · simp at h
    · simp only [create_access_token, SECRET_KEY] at h
      split at h <;> simp at h
  · rfl

/-- C8 witness: a concrete token whose expiry (-5) lies in the past at
check time 0 is rejected with Unauthorized. -/
theorem token_no_roundtrip_witness :
    (-5 : Int) < 0 ∧
    get_current_user
        [⟨9, "b@y.org", "s3cret", "A", "B", "1980-01-01", true, false, 0⟩]
        ⟨⟨some "b@y.org", some 9, -5⟩, "k"⟩ 0 =
      Except.error AuthErr.unauthorized :=
  ⟨by decide,
    (token_no_roundtrip (fun p h => p == h)
      [⟨9, "b@y.org", "s3cret", "A", "B", "1980-01-01", true, false, 0⟩]
      "b@y.org" "s3cret" 0 ⟨⟨⟨none, none, 0⟩, "k"⟩, "bearer"⟩
      ⟨⟨some "b@y.org", some 9, -5⟩, "k"⟩ 0).2⟩

end BookStore
